import Mathlib

/-!
Shallow embedding of the LexData value codec and session layer
(src/LexData/utils.py, src/LexData/claim.py, src/LexData/wikidatasession.py),
together with theorems settling the specification claims about them.

Python values flowing through the codec are modelled by the inductive
`PyVal`; Python dictionaries by association lists preserving insertion
order; raised exceptions by the `PyErr` error type inside `Except`.
-/

/-- Python datetime.datetime, as consumed by buildDataValue's time branch. -/
structure PyDateTime where
  year : Nat
  month : Nat
  day : Nat
  hour : Nat
  minute : Nat
  second : Nat
  microsecond : Nat
deriving Repr, DecidableEq

/-- The Python values the LexData codec manipulates: strings, ints, floats
(modelled as rationals), datetimes, None, tuples and dicts. -/
inductive PyVal where
  | str : String → PyVal
  | int : Int → PyVal
  | float : Rat → PyVal
  | dt : PyDateTime → PyVal
  | none : PyVal
  | tuple : List PyVal → PyVal
  | dict : List (String × PyVal) → PyVal
deriving Repr

/-- A Python dict with string keys, as an insertion-ordered association list. -/
abbrev Dict := List (String × PyVal)

/-- Python exceptions raised by the embedded code, one constructor per
exception class appearing in the sources. -/
inductive PyErr where
  | keyError : String → PyErr
  | attributeError : String → PyErr
  | typeError : String → PyErr
  | notImplementedError : List String → PyErr
  | permissionError : List PyVal → PyErr
  | exception : String → PyErr
  | valueError : String → PyErr
  | jsonDecodeError : PyErr
deriving Repr

/-- Python equality test of a value against a string literal: only an equal
str compares equal (None, ints, dicts and the rest compare unequal). -/
def PyVal.eqStr : PyVal → String → Bool
  | .str s, t => s == t
  | _, _ => false

/-- Lookup in a Python dict, as dict.get(key): None is modelled by Option. -/
def dget? : Dict → String → Option PyVal
  | [], _ => Option.none
  | (k0, v0) :: rest, k => if k0 == k then some v0 else dget? rest k

/-- Python membership test key in dict. -/
def dcontains (d : Dict) (k : String) : Bool :=
  (dget? d k).isSome

/-- Python subscript dict[key], raising KeyError when the key is absent. -/
def dgetE (d : Dict) (k : String) : Except PyErr PyVal :=
  match dget? d k with
  | some v => .ok v
  | Option.none => .error (.keyError k)

/-- Python dict assignment dict[key] = value: overwrite in place keeping the
key position, or append a fresh key at the end. -/
def dset : Dict → String → PyVal → Dict
  | [], k, v => [(k, v)]
  | (k0, v0) :: rest, k, v =>
      if k0 == k then (k0, v) :: rest else (k0, v0) :: dset rest k v

/-- Python subscripting of a value expected to be a dict; anything else
raises a TypeError, as v[key] does on non-mapping values in this code. -/
def asDict : PyVal → Except PyErr Dict
  | .dict d => .ok d
  | _ => .error (.typeError "object is not subscriptable")

/-- Chained subscript v[k1][k2][k3] on a parsed JSON object. -/
def subscript3 (d : Dict) (k1 k2 k3 : String) : Except PyErr PyVal := do
  let v1 ← dgetE d k1
  let d1 ← asDict v1
  let v2 ← dgetE d1 k2
  let d2 ← asDict v2
  dgetE d2 k3

/-- Rendering of type(value) as interpolated by the f-strings in utils.py. -/
def pyTypeName : PyVal → String
  | .str _ => "<class \x27str\x27>"
  | .int _ => "<class \x27int\x27>"
  | .float _ => "<class \x27float\x27>"
  | .dt _ => "<class \x27datetime.datetime\x27>"
  | .none => "<class \x27NoneType\x27>"
  | .tuple _ => "<class \x27tuple\x27>"
  | .dict _ => "<class \x27dict\x27>"

mutual

/-- Python repr() restricted to the value forms this code interpolates. -/
def pyRepr : PyVal → String
  | .str s => "\x27" ++ s ++ "\x27"
  | .int n => toString n
  | .float q => toString q
  | .dt _ => "datetime.datetime"
  | .none => "None"
  | .tuple vs => "(" ++ pyReprList vs ++ ")"
  | .dict entries => "\x7b" ++ pyReprEntries entries ++ "\x7d"

/-- Comma separated repr of tuple elements. -/
def pyReprList : List PyVal → String
  | [] => ""
  | [v] => pyRepr v
  | v :: rest => pyRepr v ++ ", " ++ pyReprList rest

/-- Comma separated repr of dict entries. -/
def pyReprEntries : List (String × PyVal) → String
  | [] => ""
  | [(k, v)] => "\x27" ++ k ++ "\x27: " ++ pyRepr v
  | (k, v) :: rest => "\x27" ++ k ++ "\x27: " ++ pyRepr v ++ ", " ++ pyReprEntries rest

end

/-- Python str(): the string itself for str values, repr otherwise. -/
def pyStr : PyVal → String
  | .str s => s
  | v => pyRepr v

/-- Decimal digits of a Nat left padded with zeros to the given width. -/
def padNat (width : Nat) (n : Nat) : String :=
  let s := toString n
  String.mk (List.replicate (width - s.length) '0') ++ s

/-- Python "%+f" formatting of an int or float: a forced sign followed by
the decimal rendering with six fractional digits (floats are modelled as
rationals, rounded half up at the sixth digit). -/
def formatPlusF : PyVal → String
  | .int n =>
      (if n < 0 then "-" else "+") ++ toString n.natAbs ++ ".000000"
  | .float q =>
      let sign := if q < 0 then "-" else "+"
      let scaled : Int := round (|q| * 1000000)
      let whole := scaled.toNat / 1000000
      let frac := scaled.toNat % 1000000
      sign ++ toString whole ++ "." ++ padNat 6 frac
  | _ => ""

/-- Python datetime.replace(hour=0, minute=0, second=0, microsecond=0). -/
def PyDateTime.truncated (d : PyDateTime) : PyDateTime :=
  { d with hour := 0, minute := 0, second := 0, microsecond := 0 }

/-- Python datetime.isoformat(). -/
def PyDateTime.isoformat (d : PyDateTime) : String :=
  padNat 4 d.year ++ "-" ++ padNat 2 d.month ++ "-" ++ padNat 2 d.day ++ "T" ++
    padNat 2 d.hour ++ ":" ++ padNat 2 d.minute ++ ":" ++ padNat 2 d.second ++
    (if d.microsecond == 0 then "" else "." ++ padNat 6 d.microsecond)

/-- Parse the integer value of a list of decimal digit characters, if all
characters are digits and the list is nonempty. -/
def digitsToNat : List Char → Option Nat
  | [] => Option.none
  | cs =>
      if cs.all Char.isDigit then
        some (cs.foldl (fun acc c => acc * 10 + (c.toNat - '0'.toNat)) 0)
      else Option.none

/-- Parse a decimal string of shape sign? digits (. digits)? to a rational,
the fragment of Python float() that the library's own output exercises. -/
def parseDecimal (s : String) : Option Rat :=
  let cs := s.toList
  let (sign, cs) : Rat × List Char :=
    match cs with
    | '+' :: rest => (1, rest)
    | '-' :: rest => (-1, rest)
    | rest => (1, rest)
  match cs.splitOn '.' with
  | [whole] => (digitsToNat whole).map (fun n => sign * n)
  | [whole, frac] =>
      match digitsToNat whole, digitsToNat frac with
      | some w, some f => some (sign * (w + (f : Rat) / ((10 : Rat) ^ frac.length)))
      | _, _ => Option.none
  | _ => Option.none

/-- Python float(x) on the values reaching it in claim.py: numeric values
convert, strings are parsed as decimals (ValueError on failure). -/
def pyFloat : PyVal → Except PyErr PyVal
  | .int n => .ok (.float n)
  | .float q => .ok (.float q)
  | .str s =>
      match parseDecimal s with
      | some q => .ok (.float q)
      | Option.none => .error (.valueError ("could not convert string to float: " ++ s))
  | v => .error (.typeError ("float() argument, got " ++ pyTypeName v))

/-- Embedding of buildDataValue from src/LexData/utils.py lines 25 to 105:
dispatch on the datatype string, validating the native value's Python type
and producing the tagged wire value. The int/float quantity branch tags its
result "time", exactly as the source does at line 81. -/
def buildDataValue (datatype : String) (value : PyVal) : Except PyErr PyVal :=
  if datatype ∈ ["wikibase-lexeme", "wikibase-form", "wikibase-sense",
      "wikibase-item", "wikibase-property"] then
    match value with
    | .dict _ => .ok (.dict [("value", value), ("type", .str "wikibase-entity")])
    | .str s =>
        .ok (.dict [("value", .dict [("entity-type", .str (datatype.drop 9)),
          ("id", .str s)]), ("type", .str "wikibase-entity")])
    | _ => .error (.typeError ("Can not convert type " ++ pyTypeName value ++
        " to datatype " ++ datatype))
  else if datatype ∈ ["string", "tabular-data", "geo-shape", "url",
      "musical-notation", "math", "commonsMedia"] then
    match value with
    | .dict _ => .ok (.dict [("value", value), ("type", .str "string")])
    | .str _ => .ok (.dict [("value", .dict [("value", value)]), ("type", .str "string")])
    | _ => .error (.typeError ("Can not convert type " ++ pyTypeName value ++
        " to datatype " ++ datatype))
  else if datatype == "monolingualtext" then
    match value with
    | .dict _ => .ok (.dict [("value", value), ("type", .str "monolingualtext")])
    | _ => .error (.typeError ("Can not convert type " ++ pyTypeName value ++
        " to datatype " ++ datatype))
  else if datatype == "globe-coordinate" then
    match value with
    | .dict _ => .ok (.dict [("value", value), ("type", .str "globecoordinate")])
    | _ => .error (.typeError ("Can not convert type " ++ pyTypeName value ++
        " to datatype " ++ datatype))
  else if datatype == "quantity" then
    match value with
    | .dict _ => .ok (.dict [("value", value), ("type", .str "quantity")])
    | .int _ =>
        .ok (.dict [("value", .dict [("amount", .str (formatPlusF value)),
          ("unit", .str "1")]), ("type", .str "time")])
    | .float _ =>
        .ok (.dict [("value", .dict [("amount", .str (formatPlusF value)),
          ("unit", .str "1")]), ("type", .str "time")])
    | _ => .error (.typeError ("Can not convert type " ++ pyTypeName value ++
        " to datatype " ++ datatype))
  else if datatype == "time" then
    match value with
    | .dict _ => .ok (.dict [("value", value), ("type", .str "time")])
    | .dt d =>
        .ok (.dict [("value", .dict [
          ("time", .str ("+" ++ d.truncated.isoformat ++ "Z")),
          ("timezone", .int 0),
          ("before", .int 0),
          ("after", .int 0),
          ("precision", .int 11),
          ("calendarmodel", .str "http://www.wikidata.org/entity/Q1985727")]),
          ("type", .str "time")])
    | _ => .error (.typeError ("Can not convert type " ++ pyTypeName value ++
        " to datatype " ++ datatype))
  else
    .error (.notImplementedError ["Datatype " ++ datatype ++ " not implemented"])

/-- Embedding of buildSnak from src/LexData/utils.py lines 108 to 116, with
the network datatype lookup getPropertyType(propertyId) replaced by its
result, passed as the first argument. -/
def buildSnak (dtype : String) (propertyId : String) (value : PyVal) :
    Except PyErr PyVal := do
  let datavalue ← buildDataValue dtype value
  pure (.dict [("snaktype", .str "value"), ("property", .str propertyId),
    ("datavalue", datavalue), ("datatype", .str dtype)])

/-- The dict built by the detached-claim branch of Claim.__init__
(src/LexData/claim.py lines 33 to 35), again with the property's datatype
passed in for the network lookup. -/
def detachedClaim (dtype : String) (propertyId : String) (value : PyVal) :
    Except PyErr Dict := do
  let snak ← buildSnak dtype propertyId value
  pure [("mainsnak", snak), ("rank", .str "normal")]

namespace Claim

/-- Embedding of the Claim.value property: self["mainsnak"]["datavalue"]["value"]. -/
def value (c : Dict) : Except PyErr PyVal := do
  let ms ← dgetE c "mainsnak"
  let msd ← asDict ms
  let dv ← dgetE msd "datavalue"
  let dvd ← asDict dv
  dgetE dvd "value"

/-- Embedding of the Claim.type property: self["mainsnak"]["datatype"]. -/
def type (c : Dict) : Except PyErr PyVal := do
  let ms ← dgetE c "mainsnak"
  let msd ← asDict ms
  dgetE msd "datatype"

/-- Embedding of the Claim.rank property: self["rank"]. -/
def rank (c : Dict) : Except PyErr PyVal :=
  dgetE c "rank"

/-- Embedding of Claim.numeric_rank, src/LexData/claim.py lines 77 to 90. -/
def numeric_rank (c : Dict) : Except PyErr Int := do
  let r ← rank c
  if r.eqStr "normal" then pure 0
  else if r.eqStr "preferred" then pure 1
  else if r.eqStr "deprecated" then pure (-1)
  else .error (.notImplementedError ["Unknown or invalid rank " ++ pyStr r])

/-- Embedding of Claim.pure_value, src/LexData/claim.py lines 92 to 121.
Note that the dispatch variable vtype is Claim.type, hence the snak's
datatype field, while the branches compare against datavalue-type names. -/
def pure_value (c : Dict) : Except PyErr PyVal := do
  let v ← value c
  let vtype ← type c
  if vtype.eqStr "wikibase-entityid" then do
    let d ← asDict v
    dgetE d "id"
  else if vtype.eqStr "string" then
    pure v
  else if vtype.eqStr "monolingualtext" then do
    let d ← asDict v
    dgetE d "text"
  else if vtype.eqStr "quantity" then do
    let d ← asDict v
    let amount ← dgetE d "amount"
    pyFloat amount
  else if vtype.eqStr "time" then do
    let d ← asDict v
    dgetE d "time"
  else if vtype.eqStr "globecoordinate" then do
    let d ← asDict v
    let lat ← dgetE d "latitude"
    let latf ← pyFloat lat
    let lon ← dgetE d "longitude"
    let lonf ← pyFloat lon
    pure (.tuple [latf, lonf])
  else
    .error (.notImplementedError [])

end Claim

/-!
Session layer: src/LexData/wikidatasession.py. Network interaction is
modelled by an oracle list of HTTP responses, consumed one per request;
each call returns its result together with the unconsumed responses and a
trace of the requests transmitted and the sleeps performed.
-/

/-- One HTTP response from the server: status code, parsed JSON body (none
when the body is not parseable JSON, making R.json() raise), the parsed
retry-after header (none when absent), and the raw body text. -/
structure HttpResp where
  status : Nat
  body : Option Dict
  retryAfter : Option Rat
  text : String

/-- One transmitted HTTP request: the method and the parameters sent. -/
structure SentReq where
  method : String
  params : Dict

/-- Observable side effects of a run: requests transmitted, in order, and
the durations of the time.sleep calls performed, in order. -/
structure Trace where
  sent : List SentReq
  sleeps : List Rat

/-- A run fails either with a Python exception or because the response
oracle is exhausted (a model artifact: the real loop would keep going). -/
inductive RunErr where
  | py : PyErr → RunErr
  | outOfResponses : RunErr

/-- Mutable state of a WikidataSession instance: the fields written by
src/LexData/wikidatasession.py lines 15 to 47. csrf is none while the
CSRF_TOKEN attribute is unset (reading it then raises AttributeError). -/
structure SessionState where
  url : String := "https://www.wikidata.org/w/api.php"
  username : Option String
  password : Option String
  auth : Option String
  csrf : Option PyVal
  assertUser : Option String
  maxlag : Int

/-- Evaluation of DATA["error"]["code"] on the already fetched error entry. -/
def errCode (errv : PyVal) : Except PyErr PyVal := do
  let d ← asDict errv
  dgetE d "code"

/-- Embedding of WikidataSession.get, src/LexData/wikidatasession.py lines
110 to 134: parse the body, and on a non-200 status or a body containing
an error entry, retry after sleeping when the error code is "maxlag",
otherwise raise; the identical parameters are re-sent on every retry. -/
def getFrom (data : Dict) : List HttpResp → Trace →
    Except RunErr Dict × List HttpResp × Trace
  | [], tr => (.error .outOfResponses, [], tr)
  | R :: rest, tr =>
    let tr1 : Trace := { tr with sent := tr.sent ++ [⟨"GET", data⟩] }
    match R.body with
    | Option.none => (.error (.py .jsonDecodeError), rest, tr1)
    | some DATA =>
      if R.status != 200 || dcontains DATA "error" then
        match dget? DATA "error" with
        | Option.none => (.error (.py (.keyError "error")), rest, tr1)
        | some errv =>
          match errCode errv with
          | .error e => (.error (.py e), rest, tr1)
          | .ok code =>
            if code.eqStr "maxlag" then
              getFrom data rest { tr1 with sleeps := tr1.sleeps ++ [R.retryAfter.getD 5] }
            else
              (.error (.py (.exception ("GET was unsuccessfull (" ++
                toString R.status ++ "): " ++ R.text))), rest, tr1)
      else
        (.ok DATA, rest, tr1)

/-- Embedding of the parameter preparation in WikidataSession.post, lines
88 to 92: substitute the CSRF token for the __AUTO__ sentinel, inject
assertuser when absent and a user is bound, and attach maxlag. -/
def preparePost (s : SessionState) (data : Dict) : Except PyErr Dict :=
  let step1 : Except PyErr Dict :=
    if (dget? data "token").any (fun v => v.eqStr "__AUTO__") then
      match s.csrf with
      | some t => .ok (dset data "token" t)
      | Option.none => .error (.attributeError "CSRF_TOKEN")
    else .ok data
  match step1 with
  | .error e => .error e
  | .ok d1 =>
    let d2 : Dict :=
      match dcontains d1 "assertuser", s.assertUser with
      | false, some u => dset d1 "assertuser" (.str u)
      | _, _ => d1
    .ok (dset d2 "maxlag" (.str (toString s.maxlag)))

/-- Embedding of WikidataSession.post, lines 78 to 108: prepare the
parameter dict (mutating it), send, fail on a non-200 status, parse the
body, and on an error entry sleep and re-enter post for code "maxlag" or
raise PermissionError otherwise. The second component is the final
contents of the caller-supplied parameter dict, which post mutates. -/
def postFrom (s : SessionState) : List HttpResp → Dict → Trace →
    Except RunErr Dict × Dict × List HttpResp × Trace
  | [], data, tr =>
    (match preparePost s data with
     | .error e => (.error (.py e), data, [], tr)
     | .ok d => (.error .outOfResponses, d, [], tr))
  | R :: rest, data, tr =>
    match preparePost s data with
    | .error e => (.error (.py e), data, R :: rest, tr)
    | .ok d =>
      let tr1 : Trace := { tr with sent := tr.sent ++ [⟨"POST", d⟩] }
      if R.status != 200 then
        (.error (.py (.exception ("POST was unsuccessfull (" ++
          toString R.status ++ "): " ++ R.text))), d, rest, tr1)
      else
        match R.body with
        | Option.none => (.error (.py .jsonDecodeError), d, rest, tr1)
        | some DATA =>
          match dget? DATA "error" with
          | some errv =>
            (match errCode errv with
             | .error e => (.error (.py e), d, rest, tr1)
             | .ok code =>
               if code.eqStr "maxlag" then
                 postFrom s rest d { tr1 with sleeps := tr1.sleeps ++ [R.retryAfter.getD 5] }
               else
                 (.error (.py (.permissionError
                   [.str ("API returned error: " ++ pyStr errv)])), d, rest, tr1))
          | Option.none => (.ok DATA, d, rest, tr1)

/-- Python None-or-string credential as the value placed in request data. -/
def optPy : Option String → PyVal
  | some s => .str s
  | Option.none => .none

/-- The login-token request parameters, wikidatasession.py lines 51 to 56. -/
def PARAMS_1 : Dict :=
  [("action", .str "query"), ("meta", .str "tokens"),
   ("type", .str "login"), ("format", .str "json")]

/-- The CSRF-token request parameters, wikidatasession.py line 73. -/
def PARAMS_3 : Dict :=
  [("action", .str "query"), ("meta", .str "tokens"), ("format", .str "json")]

/-- Embedding of WikidataSession.login, lines 49 to 76: fetch a login
token, post the credentials, raise PermissionError("Login failed", reason)
unless the reported result is "Success", then fetch and store the CSRF
token. The reported result is read with DATA.get("login", []).get("result"),
so a missing or non-dict login entry raises AttributeError on list.get. -/
def loginRun (s : SessionState) (resps : List HttpResp) (tr : Trace) :
    Except RunErr SessionState × List HttpResp × Trace :=
  match getFrom PARAMS_1 resps tr with
  | (.error e, resps1, tr1) => (.error e, resps1, tr1)
  | (.ok DATA1, resps1, tr1) =>
    match subscript3 DATA1 "query" "tokens" "logintoken" with
    | .error e => (.error (.py e), resps1, tr1)
    | .ok loginToken =>
      let params2 : Dict :=
        [("action", .str "login"), ("lgname", optPy s.username),
         ("lgpassword", optPy s.password), ("format", .str "json"),
         ("lgtoken", loginToken)]
      match postFrom s resps1 params2 tr1 with
      | (.error e, _, resps2, tr2) => (.error e, resps2, tr2)
      | (.ok DATA2, _, resps2, tr2) =>
        match dget? DATA2 "login" with
        | Option.none => (.error (.py (.attributeError "get")), resps2, tr2)
        | some loginv =>
          match loginv with
          | .dict loginD =>
            if ((dget? loginD "result").any (fun v => v.eqStr "Success")) = false then
              match dget? loginD "reason" with
              | some reasonv =>
                  (.error (.py (.permissionError [.str "Login failed", reasonv])),
                   resps2, tr2)
              | Option.none => (.error (.py (.keyError "reason")), resps2, tr2)
            else
              match getFrom PARAMS_3 resps2 tr2 with
              | (.error e, resps3, tr3) => (.error e, resps3, tr3)
              | (.ok DATA3, resps3, tr3) =>
                match subscript3 DATA3 "query" "tokens" "csrftoken" with
                | .error e => (.error (.py e), resps3, tr3)
                | .ok csrfv => (.ok { s with csrf := some csrfv }, resps3, tr3)
          | _ => (.error (.py (.attributeError "get")), resps2, tr2)

/-- The tail of the constructor, wikidatasession.py lines 41 to 47: store
an externally supplied token as the CSRF token and derive assertUser from
the username, truncated at the first "@". Skipped when login raised. -/
def initFinish (username : Option String) (token : Option PyVal)
    (s : SessionState) : SessionState :=
  let s1 : SessionState :=
    match token with
    | some t => { s with csrf := some t }
    | Option.none => s
  match username with
  | some u => { s1 with assertUser := some ((u.splitOn "@").headI) }
  | Option.none => s1

/-- Embedding of WikidataSession.__init__, lines 19 to 47: when both
username and password are given, raise maxlag to 30, log in, and set
maxlag back to 5 afterwards; an exception from login propagates out of
the constructor at that point, skipping both the reset and the tail.
The first component is the propagated exception, if any; the second is
the state of the instance when the constructor finishes or raises. -/
def initSession (username password : Option String) (token : Option PyVal)
    (auth : Option String) (resps : List HttpResp) :
    Option RunErr × SessionState × List HttpResp × Trace :=
  let s0 : SessionState :=
    { username := username, password := password, auth := auth,
      csrf := Option.none, assertUser := Option.none, maxlag := 5 }
  let tr0 : Trace := { sent := [], sleeps := [] }
  if username.isSome && password.isSome then
    let s1 : SessionState := { s0 with maxlag := 30 }
    match loginRun s1 resps tr0 with
    | (.error e, resps1, tr1) => (some e, s1, resps1, tr1)
    | (.ok s2, resps1, tr1) =>
        (Option.none, initFinish username token { s2 with maxlag := 5 }, resps1, tr1)
  else
    (Option.none, initFinish username token s0, resps, tr0)

/-- A heap of Python dict objects, indexed by reference. Python passes the
post parameter dict by reference; mutations through the reference are
visible to the caller after the call. -/
def Store := Nat → Dict

/-- Update the dict object held at one reference. -/
def storeSet (σ : Store) (r : Nat) (d : Dict) : Store :=
  fun r0 => if r0 = r then d else σ r0

/-- WikidataSession.post invoked on the dict object at reference r of the
heap: the call runs postFrom on that object and, since the mutations
happen in place through the reference, the heap cell afterwards holds the
final contents of the parameter dict. -/
def postOnStore (s : SessionState) (σ : Store) (r : Nat)
    (resps : List HttpResp) (tr : Trace) :
    Except RunErr Dict × Store × List HttpResp × Trace :=
  match postFrom s resps (σ r) tr with
  | (res, d, resps1, tr1) => (res, storeSet σ r d, resps1, tr1)

/-- A response carrying an API-level maxlag error, with the given
retry-after header. -/
def mkMaxlagResp (ra : Option Rat) : HttpResp :=
  { status := 200, body := some [("error", .dict [("code", .str "maxlag")])],
    retryAfter := ra, text := "" }

/-- A successful response with the given parsed payload. -/
def mkOkResp (payload : Dict) : HttpResp :=
  { status := 200, body := some payload, retryAfter := Option.none, text := "" }

/-- A server response handing out a login token. -/
def loginTokenResp (lt : String) : HttpResp :=
  mkOkResp [("query", .dict [("tokens", .dict [("logintoken", .str lt)])])]

/-- A server response to the login action reporting the given result and
reason. -/
def loginResultResp (res : String) (reason : PyVal) : HttpResp :=
  mkOkResp [("login", .dict [("result", .str res), ("reason", reason)])]

/-- A server response handing out a CSRF token. -/
def csrfTokenResp (t : String) : HttpResp :=
  mkOkResp [("query", .dict [("tokens", .dict [("csrftoken", .str t)])])]

/-- A response with HTTP status 500 whose parseable JSON body carries no
structured error entry. -/
def resp500 : HttpResp :=
  { status := 500, body := some [], retryAfter := Option.none, text := "Server Error" }

/-- The empty trace a run starts from. -/
def trace0 : Trace := { sent := [], sleeps := [] }

theorem dget_dset_self (d : Dict) (k : String) (v : PyVal) :
    dget? (dset d k v) k = some v := by
  induction d with
  | nil => simp [dset, dget?]
  | cons hd tl ih =>
    obtain ⟨k0, v0⟩ := hd
    by_cases h : k0 = k
    · simp [dset, dget?, h]
    · simp [dset, dget?, h, ih]

theorem dget_dset_ne (d : Dict) (k0 k : String) (v : PyVal) (h : k0 ≠ k) :
    dget? (dset d k0 v) k = dget? d k := by
  induction d with
  | nil => simp [dset, dget?, h]
  | cons hd tl ih =>
    obtain ⟨k1, v1⟩ := hd
    by_cases h1 : k1 = k0
    · simp [dset, dget?, h1, h]
    · simp only [dset, dget?]
      rw [if_neg (by simpa using h1)]
      by_cases h2 : k1 = k
      · simp [dget?, h2]
      · simp [dget?, h2, ih]

theorem dcontains_dset_ne (d : Dict) (k0 k : String) (v : PyVal) (h : k0 ≠ k) :
    dcontains (dset d k0 v) k = dcontains d k := by
  simp [dcontains, dget_dset_ne d k0 k v h]

/-- Under the hypotheses of the token-substitution scenario, preparePost
produces exactly the three mutations in order. -/
theorem preparePost_eq (s : SessionState) (d : Dict) (c u : String)
    (hc : s.csrf = some (.str c))
    (ht : dget? d "token" = some (.str "__AUTO__"))
    (ha : dcontains d "assertuser" = false)
    (hu : s.assertUser = some u) :
    preparePost s d = .ok (dset (dset (dset d "token" (.str c)) "assertuser" (.str u))
      "maxlag" (.str (toString s.maxlag))) := by
  unfold preparePost
  rw [ht, hc]
  have ha2 : dcontains (dset d "token" (.str c)) "assertuser" = false := by
    rw [dcontains_dset_ne d "token" "assertuser" (.str c) (by decide)]
    exact ha
  simp [PyVal.eqStr, ha2, hu]

/-- With a CSRF token set, preparePost cannot raise. -/
theorem preparePost_isOk (s : SessionState) (t : PyVal) (hc : s.csrf = some t)
    (d : Dict) : ∃ d2, preparePost s d = .ok d2 := by
  unfold preparePost
  rw [hc]
  by_cases h : (dget? d "token").any (fun v => v.eqStr "__AUTO__") <;> simp [h]

/-- Evaluation of postFrom on a single successful response. -/
theorem postFrom_single_ok (s : SessionState) (d d2 : Dict) (payload : Dict)
    (tr : Trace) (hprep : preparePost s d = .ok d2)
    (hp : dget? payload "error" = Option.none) :
    postFrom s [mkOkResp payload] d tr =
      (.ok payload, d2, [], { tr with sent := tr.sent ++ [⟨"POST", d2⟩] }) := by
  simp [postFrom, hprep, mkOkResp, hp]

/-- C1: the claim states that Decode(Encode(D, V)) is the canonical pure
value of V, exactly for the string, monolingual-text and entity-reference
families. The code refutes it: the string encoder wraps a native string s
into the payload dict so that pure_value returns that wrapper dict rather
than s, and an entity-reference claim makes pure_value raise a bare
NotImplementedError, because pure_value dispatches on the snak datatype
("wikibase-item") while its branch tests the datavalue-type name
("wikibase-entityid"). Both outcomes contradict pure_value's own
documentation ("string: the string", "wikibase-entity: the id as string").
The timestamp and monolingual-text paths, evaluated for contrast, do
reduce to the claimed pure-value projection. -/
theorem roundtrip_string_entity_failure :
    (detachedClaim "string" "P1" (.str "hello")).bind Claim.pure_value =
      .ok (.dict [("value", .str "hello")]) ∧
    (detachedClaim "wikibase-item" "P2" (.str "Q42")).bind Claim.pure_value =
      .error (.notImplementedError []) ∧
    (detachedClaim "time" "P3" (.dt ⟨2021, 3, 4, 13, 45, 0, 0⟩)).bind Claim.pure_value =
      .ok (.str "+2021-03-04T00:00:00Z") ∧
    (detachedClaim "monolingualtext" "P4"
        (.dict [("text", .str "hi"), ("language", .str "en")])).bind Claim.pure_value =
      .ok (.str "hi") :=
  ⟨rfl, rfl, rfl, rfl⟩

/-- C2: encoding datatype "wikibase-item" with id "Q42" does yield the
claimed tagged wire value, but decoding the claim carrying that datatype
and wire value does not yield "Q42": pure_value dispatches on the snak
datatype "wikibase-item", which matches none of its branches, so it raises
a bare NotImplementedError, contradicting its documented behaviour for
entity references. -/
theorem encode_item_ok_decode_raises :
    buildDataValue "wikibase-item" (.str "Q42") =
      .ok (.dict [("value", .dict [("entity-type", .str "item"), ("id", .str "Q42")]),
        ("type", .str "wikibase-entity")]) ∧
    (detachedClaim "wikibase-item" "P31" (.str "Q42")).bind Claim.pure_value =
      .error (.notImplementedError []) :=
  ⟨rfl, rfl⟩

/-- C6: the claim states the int/float quantity path is tagged "quantity";
the code tags it "time" (utils.py line 81), while the dict-passthrough path
of the same branch is tagged "quantity". The payload itself is as claimed:
the signed-decimal rendering of the number with unit "1". -/
theorem quantity_int_tagged_time :
    buildDataValue "quantity" (.int 3) =
      .ok (.dict [("value", .dict [("amount", .str "+3.000000"), ("unit", .str "1")]),
        ("type", .str "time")]) ∧
    buildDataValue "quantity" (.dict [("amount", .str "+1.5"), ("unit", .str "1")]) =
      .ok (.dict [("value", .dict [("amount", .str "+1.5"), ("unit", .str "1")]),
        ("type", .str "quantity")]) :=
  ⟨rfl, rfl⟩

/-- C7: on a claim whose rank entry is the string r, the numeric rank
projection maps preferred, normal, deprecated to 1, 0, -1, and any other
rank string raises the invalid-rank error (realized in the code as
NotImplementedError naming the offending rank; the specification labels
this error kind InvalidStateError). -/
theorem numeric_rank_projection (c : Dict) (r : String)
    (h : dget? c "rank" = some (.str r)) :
    (r = "preferred" → Claim.numeric_rank c = .ok 1) ∧
    (r = "normal" → Claim.numeric_rank c = .ok 0) ∧
    (r = "deprecated" → Claim.numeric_rank c = .ok (-1)) ∧
    (r ≠ "preferred" → r ≠ "normal" → r ≠ "deprecated" →
      Claim.numeric_rank c =
        .error (.notImplementedError ["Unknown or invalid rank " ++ r])) := by
  refine ⟨?_, ?_, ?_, ?_⟩
  · intro hr
    simp [Claim.numeric_rank, Claim.rank, dgetE, h, hr, PyVal.eqStr, Bind.bind, Except.bind, Pure.pure, Except.pure]
  · intro hr
    simp [Claim.numeric_rank, Claim.rank, dgetE, h, hr, PyVal.eqStr, Bind.bind, Except.bind, Pure.pure, Except.pure]
  · intro hr
    simp [Claim.numeric_rank, Claim.rank, dgetE, h, hr, PyVal.eqStr, Bind.bind, Except.bind, Pure.pure, Except.pure]
  · intro h1 h2 h3
    simp [Claim.numeric_rank, Claim.rank, dgetE, h, PyVal.eqStr, pyStr,
      Bind.bind, Except.bind, beq_iff_eq, h1, h2, h3]

/-- Witness for C7 at the four concrete rank strings. -/
theorem numeric_rank_projection_witness :
    Claim.numeric_rank [("rank", .str "preferred")] = .ok 1 ∧
    Claim.numeric_rank [("rank", .str "normal")] = .ok 0 ∧
    Claim.numeric_rank [("rank", .str "deprecated")] = .ok (-1) ∧
    Claim.numeric_rank [("rank", .str "bogus")] =
      .error (.notImplementedError ["Unknown or invalid rank bogus"]) :=
  ⟨(numeric_rank_projection [("rank", .str "preferred")] "preferred" rfl).1 rfl,
   (numeric_rank_projection [("rank", .str "normal")] "normal" rfl).2.1 rfl,
   (numeric_rank_projection [("rank", .str "deprecated")] "deprecated" rfl).2.2.1 rfl,
   (numeric_rank_projection [("rank", .str "bogus")] "bogus" rfl).2.2.2
     (by decide) (by decide) (by decide)⟩

/-- C5: in every Post call a token parameter equal to the "__AUTO__"
sentinel is substituted with the session's current CSRF token before
sending, an assertuser parameter is injected when none is present and the
session has a bound user, and the maxlag threshold is always attached; the
transmitted request carries the substituted parameters. -/
theorem post_prepare_token_assert_maxlag (s : SessionState) (d : Dict)
    (c u : String)
    (hc : s.csrf = some (.str c))
    (ht : dget? d "token" = some (.str "__AUTO__"))
    (ha : dcontains d "assertuser" = false)
    (hu : s.assertUser = some u)
    (payload : Dict) (hp : dget? payload "error" = Option.none) (tr : Trace) :
    preparePost s d =
      .ok (dset (dset (dset d "token" (.str c)) "assertuser" (.str u))
        "maxlag" (.str (toString s.maxlag))) ∧
    dget? (dset (dset (dset d "token" (.str c)) "assertuser" (.str u))
        "maxlag" (.str (toString s.maxlag))) "token" = some (.str c) ∧
    dget? (dset (dset (dset d "token" (.str c)) "assertuser" (.str u))
        "maxlag" (.str (toString s.maxlag))) "assertuser" = some (.str u) ∧
    dget? (dset (dset (dset d "token" (.str c)) "assertuser" (.str u))
        "maxlag" (.str (toString s.maxlag))) "maxlag" =
      some (.str (toString s.maxlag)) ∧
    (postFrom s [mkOkResp payload] d tr).2.2.2.sent =
      tr.sent ++ [⟨"POST", dset (dset (dset d "token" (.str c)) "assertuser" (.str u))
        "maxlag" (.str (toString s.maxlag))⟩] := by
  have hprep := preparePost_eq s d c u hc ht ha hu
  refine ⟨hprep, ?_, ?_, ?_, ?_⟩
  · rw [dget_dset_ne _ "maxlag" "token" _ (by decide),
      dget_dset_ne _ "assertuser" "token" _ (by decide), dget_dset_self]
  · rw [dget_dset_ne _ "maxlag" "assertuser" _ (by decide), dget_dset_self]
  · rw [dget_dset_self]
  · rw [postFrom_single_ok s d _ payload tr hprep hp]

/-- Witness for C5: with CSRF token "abc123", a post of an edit action
whose token parameter is the sentinel transmits token=abc123, an injected
assertuser, and the maxlag threshold. -/
theorem post_prepare_token_assert_maxlag_witness :
    preparePost
      { username := some "alice", password := Option.none, auth := Option.none,
        csrf := some (.str "abc123"), assertUser := some "alice", maxlag := 5 }
      [("action", .str "edit"), ("token", .str "__AUTO__")] =
      .ok [("action", .str "edit"), ("token", .str "abc123"),
           ("assertuser", .str "alice"), ("maxlag", .str "5")] ∧
    (postFrom
      { username := some "alice", password := Option.none, auth := Option.none,
        csrf := some (.str "abc123"), assertUser := some "alice", maxlag := 5 }
      [mkOkResp [("ok", .int 1)]]
      [("action", .str "edit"), ("token", .str "__AUTO__")] trace0).2.2.2.sent =
      [⟨"POST", [("action", .str "edit"), ("token", .str "abc123"),
        ("assertuser", .str "alice"), ("maxlag", .str "5")]⟩] :=
  ⟨(post_prepare_token_assert_maxlag
      { username := some "alice", password := Option.none, auth := Option.none,
        csrf := some (.str "abc123"), assertUser := some "alice", maxlag := 5 }
      [("action", .str "edit"), ("token", .str "__AUTO__")]
      "abc123" "alice" rfl rfl rfl rfl [("ok", .int 1)] rfl trace0).1,
   (post_prepare_token_assert_maxlag
      { username := some "alice", password := Option.none, auth := Option.none,
        csrf := some (.str "abc123"), assertUser := some "alice", maxlag := 5 }
      [("action", .str "edit"), ("token", .str "__AUTO__")]
      "abc123" "alice" rfl rfl rfl rfl [("ok", .int 1)] rfl trace0).2.2.2.2⟩

/-- C10: Post mutates the caller-supplied parameter dict in place: after a
successful Post call, the heap cell holding the dict the caller passed in
has its token entry overwritten with the CSRF token (when the sentinel was
used), an assertuser entry added (when a user is bound and none was
present), and a maxlag entry set to the session's threshold, while every
other heap cell is untouched. -/
theorem post_mutates_caller_dict_in_place (s : SessionState) (σ : Store)
    (r : Nat) (c u : String)
    (hc : s.csrf = some (.str c))
    (ht : dget? (σ r) "token" = some (.str "__AUTO__"))
    (ha : dcontains (σ r) "assertuser" = false)
    (hu : s.assertUser = some u)
    (payload : Dict) (hp : dget? payload "error" = Option.none) (tr : Trace) :
    (postOnStore s σ r [mkOkResp payload] tr).1 = .ok payload ∧
    dget? ((postOnStore s σ r [mkOkResp payload] tr).2.1 r) "token" =
      some (.str c) ∧
    dget? ((postOnStore s σ r [mkOkResp payload] tr).2.1 r) "assertuser" =
      some (.str u) ∧
    dget? ((postOnStore s σ r [mkOkResp payload] tr).2.1 r) "maxlag" =
      some (.str (toString s.maxlag)) ∧
    ∀ r0, r0 ≠ r → (postOnStore s σ r [mkOkResp payload] tr).2.1 r0 = σ r0 := by
  have hprep := preparePost_eq s (σ r) c u hc ht ha hu
  have hrun := postFrom_single_ok s (σ r) _ payload tr hprep hp
  simp only [postOnStore, hrun]
  refine ⟨?_, ?_, ?_, ?_, ?_⟩
  · trivial
  · simp [storeSet, dget_dset_ne _ "maxlag" "token" _ (by decide),
      dget_dset_ne _ "assertuser" "token" _ (by decide), dget_dset_self]
  · simp [storeSet, dget_dset_ne _ "maxlag" "assertuser" _ (by decide),
      dget_dset_self]
  · simp [storeSet, dget_dset_self]
  · intro r0 h0
    simp [storeSet, h0]

/-- Witness for C10 on a two-cell heap: the cell the post call was given is
mutated, the other cell is untouched. -/
theorem post_mutates_caller_dict_in_place_witness :
    (postOnStore
      { username := some "alice", password := Option.none, auth := Option.none,
        csrf := some (.str "abc123"), assertUser := some "alice", maxlag := 5 }
      (fun _ => [("token", .str "__AUTO__")]) 0
      [mkOkResp [("ok", .int 1)]] trace0).1 = .ok [("ok", .int 1)] ∧
    dget? ((postOnStore
      { username := some "alice", password := Option.none, auth := Option.none,
        csrf := some (.str "abc123"), assertUser := some "alice", maxlag := 5 }
      (fun _ => [("token", .str "__AUTO__")]) 0
      [mkOkResp [("ok", .int 1)]] trace0).2.1 0) "token" = some (.str "abc123") ∧
    (postOnStore
      { username := some "alice", password := Option.none, auth := Option.none,
        csrf := some (.str "abc123"), assertUser := some "alice", maxlag := 5 }
      (fun _ => [("token", .str "__AUTO__")]) 0
      [mkOkResp [("ok", .int 1)]] trace0).2.1 1 = [("token", .str "__AUTO__")] :=
  ⟨(post_mutates_caller_dict_in_place
      { username := some "alice", password := Option.none, auth := Option.none,
        csrf := some (.str "abc123"), assertUser := some "alice", maxlag := 5 }
      (fun _ => [("token", .str "__AUTO__")]) 0 "abc123" "alice"
      rfl rfl rfl rfl [("ok", .int 1)] rfl trace0).1,
   (post_mutates_caller_dict_in_place
      { username := some "alice", password := Option.none, auth := Option.none,
        csrf := some (.str "abc123"), assertUser := some "alice", maxlag := 5 }
      (fun _ => [("token", .str "__AUTO__")]) 0 "abc123" "alice"
      rfl rfl rfl rfl [("ok", .int 1)] rfl trace0).2.1,
   (post_mutates_caller_dict_in_place
      { username := some "alice", password := Option.none, auth := Option.none,
        csrf := some (.str "abc123"), assertUser := some "alice", maxlag := 5 }
      (fun _ => [("token", .str "__AUTO__")]) 0 "abc123" "alice"
      rfl rfl rfl rfl [("ok", .int 1)] rfl trace0).2.2.2.2 1 (by decide)⟩

/-- C4: a Session constructed with username and password against a login
response that does not report result "Success" raises the authentication
failure (realized as PermissionError("Login failed", reason), the raise
the specification labels AuthenticationError) carrying the server-supplied
reason, transmits only the two login-sequence requests, and consumes no
further responses even when more are available. -/
theorem login_failure_authentication_error (reason : PyVal) (res : String)
    (hres : res ≠ "Success") (rest : List HttpResp) :
    (initSession (some "alice@bot") (some "pw") Option.none Option.none
        (loginTokenResp "LT" :: loginResultResp res reason :: rest)).1 =
      some (.py (.permissionError [.str "Login failed", reason])) ∧
    (initSession (some "alice@bot") (some "pw") Option.none Option.none
        (loginTokenResp "LT" :: loginResultResp res reason :: rest)).2.2.1 = rest ∧
    (initSession (some "alice@bot") (some "pw") Option.none Option.none
        (loginTokenResp "LT" :: loginResultResp res reason :: rest)).2.2.2.sent.map
        (fun q => q.method) = ["GET", "POST"] ∧
    (initSession (some "alice@bot") (some "pw") Option.none Option.none
        (loginTokenResp "LT" :: loginResultResp res reason :: rest)).2.2.2.sleeps = [] := by
  refine ⟨?_, ?_, ?_, ?_⟩ <;>
    simp [initSession, loginRun, getFrom, postFrom, preparePost, subscript3,
      dgetE, asDict, dget?, dcontains, errCode, optPy, PARAMS_1, PARAMS_3,
      loginTokenResp, loginResultResp, mkOkResp, PyVal.eqStr, beq_iff_eq,
      hres, Bind.bind, Except.bind, dset]

/-- Witness for C4 at a concrete failed login with a spare response left
unconsumed. -/
theorem login_failure_authentication_error_witness :
    (initSession (some "alice@bot") (some "pw") Option.none Option.none
        (loginTokenResp "LT" :: loginResultResp "Failed" (.str "Incorrect password")
          :: [mkOkResp []])).1 =
      some (.py (.permissionError [.str "Login failed", .str "Incorrect password"])) ∧
    (initSession (some "alice@bot") (some "pw") Option.none Option.none
        (loginTokenResp "LT" :: loginResultResp "Failed" (.str "Incorrect password")
          :: [mkOkResp []])).2.2.1 = [mkOkResp []] ∧
    (initSession (some "alice@bot") (some "pw") Option.none Option.none
        (loginTokenResp "LT" :: loginResultResp "Failed" (.str "Incorrect password")
          :: [mkOkResp []])).2.2.2.sent.map (fun q => q.method) = ["GET", "POST"] ∧
    (initSession (some "alice@bot") (some "pw") Option.none Option.none
        (loginTokenResp "LT" :: loginResultResp "Failed" (.str "Incorrect password")
          :: [mkOkResp []])).2.2.2.sleeps = [] :=
  login_failure_authentication_error (.str "Incorrect password") "Failed"
    (by decide) [mkOkResp []]

/-- C8 counterexample: constructing with credentials against a failing
login leaves the instance's maxlag threshold at the elevated 30 when the
constructor propagates the failure, refuting the part of the claim that
says the threshold is restored to the default when login fails. -/
theorem maxlag_not_restored_on_login_failure :
    (initSession (some "alice") (some "pw") Option.none Option.none
      [loginTokenResp "LT", loginResultResp "Failed" (.str "bad")]).1.isSome = true ∧
    (initSession (some "alice") (some "pw") Option.none Option.none
      [loginTokenResp "LT", loginResultResp "Failed" (.str "bad")]).2.1.maxlag = 30 ∧
    (30 : Int) ≠ 5 :=
  ⟨rfl, rfl, by decide⟩

/-- C8 amended: with credentials the constructor raises the maxlag
threshold to 30 for the login requests (the login POST transmits
maxlag=30 while the token GETs carry none) and resets it to 5 after a
successful login; when login fails the exception propagates before the
reset, leaving the threshold at 30 — it is restored on success only. -/
theorem maxlag_elevated_login (lt tok : String) (reason : PyVal)
    (res : String) (hres : res ≠ "Success") :
    ((initSession (some "u") (some "p") Option.none Option.none
        [loginTokenResp lt, loginResultResp "Success" reason, csrfTokenResp tok]).1 =
      Option.none ∧
     (initSession (some "u") (some "p") Option.none Option.none
        [loginTokenResp lt, loginResultResp "Success" reason, csrfTokenResp tok]).2.1.maxlag = 5 ∧
     (initSession (some "u") (some "p") Option.none Option.none
        [loginTokenResp lt, loginResultResp "Success" reason, csrfTokenResp tok]).2.2.2.sent.map
        (fun q => (q.method, dget? q.params "maxlag")) =
       [("GET", Option.none), ("POST", some (.str (toString (30 : Int)))),
        ("GET", Option.none)]) ∧
    ((initSession (some "u") (some "p") Option.none Option.none
        [loginTokenResp lt, loginResultResp res reason]).1.isSome = true ∧
     (initSession (some "u") (some "p") Option.none Option.none
        [loginTokenResp lt, loginResultResp res reason]).2.1.maxlag = 30) := by
  constructor
  · refine ⟨?_, ?_, ?_⟩ <;>
      simp [initSession, loginRun, getFrom, postFrom, preparePost, subscript3,
        dgetE, asDict, dget?, dcontains, errCode, optPy, PARAMS_1, PARAMS_3,
        loginTokenResp, loginResultResp, csrfTokenResp, mkOkResp, initFinish,
        PyVal.eqStr, Bind.bind, Except.bind, dset]
  · refine ⟨?_, ?_⟩ <;>
      simp [initSession, loginRun, getFrom, postFrom, preparePost, subscript3,
        dgetE, asDict, dget?, dcontains, errCode, optPy, PARAMS_1, PARAMS_3,
        loginTokenResp, loginResultResp, mkOkResp, PyVal.eqStr, beq_iff_eq,
        hres, Bind.bind, Except.bind, dset]

/-- Witness for C8, at concrete tokens and a concrete failing result. -/
theorem maxlag_elevated_login_witness :
    ((initSession (some "u") (some "p") Option.none Option.none
        [loginTokenResp "LT", loginResultResp "Success" (.str ""), csrfTokenResp "abc"]).1 =
      Option.none ∧
     (initSession (some "u") (some "p") Option.none Option.none
        [loginTokenResp "LT", loginResultResp "Success" (.str ""), csrfTokenResp "abc"]).2.1.maxlag = 5 ∧
     (initSession (some "u") (some "p") Option.none Option.none
        [loginTokenResp "LT", loginResultResp "Success" (.str ""), csrfTokenResp "abc"]).2.2.2.sent.map
        (fun q => (q.method, dget? q.params "maxlag")) =
       [("GET", Option.none), ("POST", some (.str (toString (30 : Int)))),
        ("GET", Option.none)]) ∧
    ((initSession (some "u") (some "p") Option.none Option.none
        [loginTokenResp "LT", loginResultResp "Failed" (.str "bad")]).1.isSome = true ∧
     (initSession (some "u") (some "p") Option.none Option.none
        [loginTokenResp "LT", loginResultResp "Failed" (.str "bad")]).2.1.maxlag = 30) :=
  maxlag_elevated_login "LT" "abc" (.str "") "Failed" (by decide)

/-- C9 counterexample: a GET whose response has status 500 and a parseable
body carrying no structured error entry fails with KeyError("error") from
the DATA["error"] lookup, not with the RequestError message carrying the
status and body that the claim states. -/
theorem get_non200_no_error_raises_keyerror :
    (getFrom [] [resp500] trace0).1 = .error (.py (.keyError "error")) ∧
    (getFrom [] [resp500] trace0).1 ≠
      .error (.py (.exception "GET was unsuccessfull (500): Server Error")) := by
  refine ⟨rfl, ?_⟩
  intro h
  have h2 : (Except.error (RunErr.py (PyErr.keyError "error")) :
      Except RunErr Dict) =
      Except.error (RunErr.py (PyErr.exception "GET was unsuccessfull (500): Server Error")) := h
  simp at h2

/-- C9 amended: an API-level error entry on a GET with any code other than
"maxlag" does fail with the RequestError carrying the status and body
text, whatever the status; but a non-200 response whose parseable body has
no error entry fails with KeyError("error"), not with that RequestError. -/
theorem get_error_dispatch (status : Nat) (text : String) (code : String)
    (hcode : code ≠ "maxlag") (ra : Option Rat) (rest : List HttpResp)
    (data : Dict) (tr : Trace)
    (status2 : Nat) (h200 : status2 ≠ 200) (body2 : Dict)
    (hb2 : dget? body2 "error" = Option.none) (text2 : String)
    (ra2 : Option Rat) (rest2 : List HttpResp) :
    getFrom data ({ status := status,
                    body := some [("error", .dict [("code", .str code)])],
                    retryAfter := ra, text := text } :: rest) tr =
      (.error (.py (.exception ("GET was unsuccessfull (" ++ toString status ++
        "): " ++ text))), rest,
       { tr with sent := tr.sent ++ [⟨"GET", data⟩] }) ∧
    getFrom data ({ status := status2, body := some body2,
                    retryAfter := ra2, text := text2 } :: rest2) tr =
      (.error (.py (.keyError "error")), rest2,
       { tr with sent := tr.sent ++ [⟨"GET", data⟩] }) := by
  constructor
  · simp [getFrom, dcontains, dget?, errCode, asDict, dgetE, PyVal.eqStr,
      beq_iff_eq, hcode, Bind.bind, Except.bind]
  · simp [getFrom, dcontains, hb2, h200]

/-- Witness for C9 amended, at a protected-page error with status 403 and
at the 500-status no-error response. -/
theorem get_error_dispatch_witness :
    getFrom [] [{ status := 403,
                  body := some [("error", .dict [("code", .str "protected")])],
                  retryAfter := Option.none, text := "denied" }] trace0 =
      (.error (.py (.exception "GET was unsuccessfull (403): denied")), [],
       { sent := [⟨"GET", []⟩], sleeps := [] }) ∧
    getFrom [] [resp500] trace0 =
      (.error (.py (.keyError "error")), [],
       { sent := [⟨"GET", []⟩], sleeps := [] }) :=
  ⟨(get_error_dispatch 403 "denied" "protected" (by decide) Option.none [] [] trace0
      500 (by decide) [] rfl "Server Error" Option.none []).1,
   (get_error_dispatch 403 "denied" "protected" (by decide) Option.none [] [] trace0
      500 (by decide) [] rfl "Server Error" Option.none []).2⟩

/-- C3: for a GET or POST, every response carrying an API-level maxlag
error causes exactly one sleep of the retry-after duration (5 when the
header is absent) followed by one re-issued identical request, with no
bound on the number of occurrences: for any list of maxlag responses
followed by a success, the call returns the success payload, having slept
once per maxlag response, and transmits one request per response. -/
theorem maxlag_retry_get_post (ras : List (Option Rat)) (payload : Dict)
    (hp : dget? payload "error" = Option.none)
    (data : Dict) (tr : Trace)
    (s : SessionState) (t : PyVal) (hc : s.csrf = some t) :
    getFrom data (ras.map mkMaxlagResp ++ [mkOkResp payload]) tr =
      (.ok payload, [],
       { sent := tr.sent ++ List.replicate (ras.length + 1) ⟨"GET", data⟩,
         sleeps := tr.sleeps ++ ras.map (fun ra => ra.getD 5) }) ∧
    ((postFrom s (ras.map mkMaxlagResp ++ [mkOkResp payload]) data tr).1 =
      .ok payload ∧
     (postFrom s (ras.map mkMaxlagResp ++ [mkOkResp payload]) data tr).2.2.2.sleeps =
      tr.sleeps ++ ras.map (fun ra => ra.getD 5) ∧
     (postFrom s (ras.map mkMaxlagResp ++ [mkOkResp payload]) data tr).2.2.2.sent.length =
      tr.sent.length + (ras.length + 1)) := by
  constructor
  · induction ras generalizing tr with
    | nil =>
        simp [getFrom, mkOkResp, dcontains, hp]
    | cons ra ras ih =>
        have step : getFrom data
            (mkMaxlagResp ra :: (ras.map mkMaxlagResp ++ [mkOkResp payload])) tr =
            getFrom data (ras.map mkMaxlagResp ++ [mkOkResp payload])
              { sent := tr.sent ++ [⟨"GET", data⟩],
                sleeps := tr.sleeps ++ [ra.getD 5] } := by
          simp [getFrom, mkMaxlagResp, dcontains, dget?, errCode, asDict, dgetE,
            PyVal.eqStr, Bind.bind, Except.bind]
        rw [List.map_cons, List.cons_append, step, ih]
        simp [List.append_assoc, List.replicate_succ]
  · induction ras generalizing data tr with
    | nil =>
        obtain ⟨d2, hd2⟩ := preparePost_isOk s t hc data
        have hrun := postFrom_single_ok s data d2 payload tr hd2 hp
        simp [hrun]
    | cons ra ras ih =>
        obtain ⟨d2, hd2⟩ := preparePost_isOk s t hc data
        have step : postFrom s
            (mkMaxlagResp ra :: (ras.map mkMaxlagResp ++ [mkOkResp payload])) data tr =
            postFrom s (ras.map mkMaxlagResp ++ [mkOkResp payload]) d2
              { sent := tr.sent ++ [⟨"POST", d2⟩],
                sleeps := tr.sleeps ++ [ra.getD 5] } := by
          simp [postFrom, hd2, mkMaxlagResp, dget?, errCode, asDict, dgetE,
            PyVal.eqStr, Bind.bind, Except.bind]
        rw [List.map_cons, List.cons_append, step]
        obtain ⟨ih1, ih2, ih3⟩ := ih d2
          { sent := tr.sent ++ [⟨"POST", d2⟩], sleeps := tr.sleeps ++ [ra.getD 5] }
        refine ⟨ih1, ?_, ?_⟩
        · rw [ih2]
          simp [List.append_assoc]
        · rw [ih3]
          simp
          omega

/-- Witness for C3: two maxlag responses (retry-after 2, then no header)
followed by a success make both the GET and the POST return the success
payload having slept for 2 and then 5 seconds, transmitting three
requests. -/
theorem maxlag_retry_get_post_witness :
    getFrom [("action", .str "query")]
        ([some (2 : Rat), Option.none].map mkMaxlagResp ++
          [mkOkResp [("x", .str "ok")]]) trace0 =
      (.ok [("x", .str "ok")], [],
       { sent := [⟨"GET", [("action", .str "query")]⟩,
                  ⟨"GET", [("action", .str "query")]⟩,
                  ⟨"GET", [("action", .str "query")]⟩],
         sleeps := [2, 5] }) ∧
    ((postFrom
        { username := Option.none, password := Option.none, auth := Option.none,
          csrf := some (.str "tkn"), assertUser := Option.none, maxlag := 5 }
        ([some (2 : Rat), Option.none].map mkMaxlagResp ++
          [mkOkResp [("x", .str "ok")]]) [("action", .str "query")] trace0).1 =
      .ok [("x", .str "ok")] ∧
     (postFrom
        { username := Option.none, password := Option.none, auth := Option.none,
          csrf := some (.str "tkn"), assertUser := Option.none, maxlag := 5 }
        ([some (2 : Rat), Option.none].map mkMaxlagResp ++
          [mkOkResp [("x", .str "ok")]]) [("action", .str "query")] trace0).2.2.2.sleeps =
      [2, 5] ∧
     (postFrom
        { username := Option.none, password := Option.none, auth := Option.none,
          csrf := some (.str "tkn"), assertUser := Option.none, maxlag := 5 }
        ([some (2 : Rat), Option.none].map mkMaxlagResp ++
          [mkOkResp [("x", .str "ok")]]) [("action", .str "query")] trace0).2.2.2.sent.length =
      3) :=
  maxlag_retry_get_post [some (2 : Rat), Option.none] [("x", .str "ok")] rfl
    [("action", .str "query")] trace0
    { username := Option.none, password := Option.none, auth := Option.none,
      csrf := some (.str "tkn"), assertUser := Option.none, maxlag := 5 }
    (.str "tkn") rfl
